import Mathlib

/-!
Shallow embedding of the pagination core of the trustar-python client library:
`trustar/models/numbered_page.py`, `trustar/models/cursor_page.py`, and the
time-window advance function of `trustar/report_client.py`.

Modelling conventions:
* Python values appearing in JSON positions are modelled by `PyVal`; Python
  truthiness is `pyTruthy`.
* Python `None` returns (for example `has_more_pages` returning no value) are
  modelled with `Option`.
* Python exceptions are modelled with `Except PyErr`.
* Python generators (`yield` loops) are modelled as fuel-indexed functions
  returning the list of pages produced within the given iteration budget; the
  fuel bounds only the number of loop iterations, it is not part of the
  source logic.
-/

/-- Python JSON-style scalar values as they occur in item and cursor
positions of the wire format (strings, numbers, booleans, null).  Compound
values (arrays, nested objects) are opaque payloads to every operation the
claims touch, so scalars stand in for them. -/
inductive PyVal where
  | none : PyVal
  | bool (b : Bool) : PyVal
  | int (n : Int) : PyVal
  | str (s : String) : PyVal
deriving DecidableEq, Repr

/-- Python truthiness of a `PyVal`: `None`, `False`, `0` and the empty string
are falsy, everything else is truthy. -/
def pyTruthy : PyVal → Bool
  | .none => false
  | .bool b => b
  | .int n => n != 0
  | .str s => s != ""

/-- Python `dict.get(key)` on a string-keyed dictionary: the stored value, or
`None` when the key is absent. -/
def pyGet (d : List (String × PyVal)) (key : String) : PyVal :=
  (d.lookup key).getD PyVal.none

/-- An item held by a page.  `plain v` is a bare value with no `to_dict`
method (for example a raw JSON dictionary); `obj d` is a deserialized model
object, represented by the dictionary `d` that its `to_dict` method returns. -/
inductive Item where
  | plain (v : PyVal) : Item
  | obj (d : PyVal) : Item
deriving DecidableEq, Repr

/-- Python exceptions raised by the modelled code, plus the
`configurationError` constructor used to state the error taxonomy of the
specification. -/
inductive PyErr where
  | valueError (msg : String) : PyErr
  | attributeError (msg : String) : PyErr
  | configurationError (msg : String) : PyErr
deriving DecidableEq, Repr

/-- A Python class object passed as the `content_type` argument of
`from_dict`: its name, whether `issubclass(content_type, ModelBase)` holds,
and its own `from_dict` deserializer taking a raw item. -/
structure ContentType where
  name : String
  isModelBaseSubclass : Bool
  from_dict : PyVal → Item

/-- Wire-format dictionary for a numbered page (`items`, `pageNumber`,
`pageSize`, `totalElements`, `hasNext`); an `Option.none` field stands for an
absent key (or a key stored with value `None`, which `dict.get` does not
distinguish). -/
structure RawNumberedPage where
  items : Option (List PyVal)
  pageNumber : Option Nat
  pageSize : Option Nat
  totalElements : Option Nat
  hasNext : Option Bool
deriving DecidableEq, Repr

/-- Wire-format dictionary for a cursor page (`items`,
`responseMetadata`). -/
structure RawCursorPage where
  items : Option (List PyVal)
  responseMetadata : Option (List (String × PyVal))
deriving DecidableEq, Repr

/-- The `NumberedPage` model class (`trustar/models/numbered_page.py`): a
list of items plus number-based pagination bookkeeping. -/
structure NumberedPage (α : Type) where
  items : List α
  page_number : Option Nat
  page_size : Option Nat
  total_elements : Option Nat
  has_next : Option Bool
deriving DecidableEq, Repr

/-- Ceiling division on naturals, the value of
`math.ceil(float(t) / float(s))` for `s > 0` (the source would raise
`ZeroDivisionError` for `s = 0`; no claim touches that case). -/
def ceilDiv (t s : Nat) : Nat :=
  (t + s - 1) / s

/-- `NumberedPage.get_total_pages`: `None` when `total_elements` or
`page_size` is `None`, otherwise the ceiling of their quotient. -/
def NumberedPage.get_total_pages (p : NumberedPage α) : Option Nat :=
  match p.total_elements, p.page_size with
  | some t, some s => some (ceilDiv t s)
  | _, _ => Option.none

/-- `NumberedPage.has_more_pages`: the explicit `has_next` field when it is
not `None`; otherwise `page_number + 1 < get_total_pages()` when both are
available; otherwise the bare `return`, i.e. Python `None`. -/
def NumberedPage.has_more_pages (p : NumberedPage α) : Option Bool :=
  match p.has_next with
  | some b => some b
  | Option.none =>
    match p.page_number, p.get_total_pages with
    | some n, some total_pages => some (decide (n + 1 < total_pages))
    | _, _ => Option.none

/-- `NumberedPage.from_dict`: builds the page from the raw dictionary, then,
when a `content_type` is given, raises
`ValueError("'content_type' must be a subclass of ModelBase.")` unless it is
a subclass of `ModelBase`, and otherwise replaces each raw item by its
deserialization.  The `items.getD []` normalisation is the base `Page`
constructor; modelled from the spec: `trustar/models/page.py` is not in the
sources, and the spec states that `items` is never null after
construction. -/
def NumberedPage.from_dict (page : RawNumberedPage) (content_type : Option ContentType) :
    Except PyErr (NumberedPage Item) :=
  let result : NumberedPage Item :=
    { items := (page.items.getD []).map Item.plain
      page_number := page.pageNumber
      page_size := page.pageSize
      total_elements := page.totalElements
      has_next := page.hasNext }
  match content_type with
  | Option.none => .ok result
  | some ct =>
    if ct.isModelBaseSubclass then
      .ok { result with items := (page.items.getD []).map ct.from_dict }
    else
      .error (.valueError "\x27content_type\x27 must be a subclass of ModelBase.")

/-- Serialization of one item inside `NumberedPage.to_dict`: an item with a
`to_dict` method is replaced by its dictionary representation, any other item
is appended unchanged. -/
def itemToDict : Item → PyVal
  | .plain v => v
  | .obj d => d

/-- `NumberedPage.to_dict`: the page as a wire-format dictionary.  The
`remove_nones` flag is only forwarded to the items, whose serialization is
already fixed by their `Item.obj` representation, and the top-level keys are
always emitted. -/
def NumberedPage.to_dict (p : NumberedPage Item) (_remove_nones : Bool := false) :
    RawNumberedPage :=
  { items := some (p.items.map itemToDict)
    pageNumber := p.page_number
    pageSize := p.page_size
    totalElements := p.total_elements
    hasNext := p.has_next }

/-- `NumberedPage.get_page_generator`: starting from `start_page`, fetch a
page, yield it, then continue exactly when `has_more_pages()` on the fetched
page is truthy (`True`; `False` and `None` both stop), fetching the next page
number.  `fuel` bounds the number of loop iterations. -/
def NumberedPage.get_page_generator (func : Nat → Option Nat → NumberedPage α)
    (page_number : Nat) (page_size : Option Nat) : Nat → List (NumberedPage α)
  | 0 => []
  | fuel + 1 =>
    let page := func page_number page_size
    page ::
      (if page.has_more_pages = some true then
        NumberedPage.get_page_generator func (page_number + 1) page_size fuel
      else [])

/-- The `CursorPage` model class (`trustar/models/cursor_page.py`): a list of
items plus the `responseMetadata` dictionary carrying the continuation
cursor. -/
structure CursorPage (α : Type) where
  items : List α
  response_metadata : Option (List (String × PyVal))
deriving DecidableEq, Repr

/-- `CursorPage.from_dict`: builds the page from the raw dictionary, with the
same `content_type` check and `ValueError` as `NumberedPage.from_dict`.  The
`items.getD []` normalisation is the base `Page` constructor; modelled from
the spec: `trustar/models/page.py` is not in the sources, and the spec states
that `items` is never null after construction. -/
def CursorPage.from_dict (page : RawCursorPage) (content_type : Option ContentType) :
    Except PyErr (CursorPage Item) :=
  let result : CursorPage Item :=
    { items := (page.items.getD []).map Item.plain
      response_metadata := page.responseMetadata }
  match content_type with
  | Option.none => .ok result
  | some ct =>
    if ct.isModelBaseSubclass then
      .ok { result with items := (page.items.getD []).map ct.from_dict }
    else
      .error (.valueError "\x27content_type\x27 must be a subclass of ModelBase.")

/-- Serialization of one item inside `CursorPage.to_dict`, which calls
`n.to_dict(remove_nones)` unconditionally: an item without a `to_dict` method
raises `AttributeError`. -/
def itemToDictStrict : Item → Except PyErr PyVal
  | .plain _ => .error (.attributeError "item has no attribute to_dict")
  | .obj d => .ok d

/-- `CursorPage.to_dict`: the page as a wire-format dictionary; fails when
some item has no `to_dict` method. -/
def CursorPage.to_dict (p : CursorPage Item) (_remove_nones : Bool := false) :
    Except PyErr RawCursorPage :=
  match p.items.mapM itemToDictStrict with
  | .error e => .error e
  | .ok xs => .ok { items := some xs, responseMetadata := p.response_metadata }

/-- The inner `get_next_cursor` helper of
`CursorPage.get_cursor_based_page_generator`: serialize the page with
`to_dict` (which can raise), read `responseMetadata` from the resulting
dictionary (the dictionary itself is always truthy since it always carries
two keys), and when that metadata is truthy read `nextCursor` from it;
otherwise the initial `str()` value is returned. -/
def get_next_cursor (p : CursorPage Item) : Except PyErr PyVal :=
  match p.to_dict with
  | .error e => .error e
  | .ok page_dict =>
    .ok (match page_dict.responseMetadata with
      | Option.none => .str ""
      | some md => if md.isEmpty then .str "" else pyGet md "nextCursor")

/-- `CursorPage.get_cursor_based_page_generator`: fetch a page with the
current cursor, extract the next cursor from it (an exception here escapes
before the page is yielded), set `finished` to the falsiness of that fresh
cursor, yield the page, and loop while not finished.  Returns the list of
yielded pages and the exception that escaped, if any; `fuel` bounds the
number of loop iterations. -/
def CursorPage.get_cursor_based_page_generator (get_page : PyVal → CursorPage Item) :
    PyVal → Nat → List (CursorPage Item) × Option PyErr
  | _, 0 => ([], Option.none)
  | cursor, fuel + 1 =>
    let page := get_page cursor
    match get_next_cursor page with
    | .error e => ([], some e)
    | .ok c =>
      if pyTruthy c then
        let rest := CursorPage.get_cursor_based_page_generator get_page c fuel
        (page :: rest.1, rest.2)
      else ([page], Option.none)

/-- The `Report` model class (`trustar/models/report.py`), restricted to the
single field the pagination core reads: the `updated` timestamp in
milliseconds since the Unix epoch (an integer on the wire; the other fields
of `Report` never reach the time-window logic). -/
structure Report where
  updated : Int
deriving DecidableEq, Repr

/-- Modelled from the spec: the `DAY` constant of `trustar/utils.py` is not
in the sources; timestamps are milliseconds since the Unix epoch, so one day
is 24 * 60 * 60 * 1000 milliseconds. -/
def DAY : Int := 86400000

/-- The inner `get_next_to_time` helper of
`ReportClient._get_reports_page_generator`: when the fetched page has items,
return `result.items[-1].updated - 1` (one less than the updated timestamp of
the last item); on an empty page step the window back by one day. -/
def get_next_to_time (result : NumberedPage Report) (to_time : Int) : Int :=
  match result.items.getLast? with
  | some r => r.updated - 1
  | Option.none => to_time - DAY

/-- Whether a computation failed with a `configurationError` whose message
mentions the given type name (the error the specification prescribes for an
invalid `content_type`). -/
def raisesConfigurationErrorNaming {β : Type} (r : Except PyErr β) (typeName : String) : Bool :=
  match r with
  | .error (.configurationError msg) => (msg.splitOn typeName).length ≥ 2
  | _ => false

/-- Fetch function for a fixed dataset of 5 elements served in pages of
size 2 (consistent bookkeeping, `hasNext` unset, fetched page numbers echo
the requested ones). -/
def exampleFetchFive : Nat → Option Nat → NumberedPage Item :=
  fun n _ => ⟨[], some n, some 2, some 5, Option.none⟩

/-- Fetch function for an empty fixed dataset: every page reports
`totalElements = 0`, `pageSize = 25`, `hasNext` unset. -/
def exampleFetchEmpty : Nat → Option Nat → NumberedPage Item :=
  fun n _ => ⟨[], some n, some 25, some 0, Option.none⟩

/-- Fetch function whose pages carry `hasNext = False` while the computed
total page count (100 elements in pages of 25) would suggest more pages. -/
def exampleFetchHasNextFalse : Nat → Option Nat → NumberedPage Item :=
  fun n _ => ⟨[], some n, some 25, some 100, some false⟩

/-- Cursor page whose metadata carries `nextCursor = "abc"`. -/
def cursorPageAbc : CursorPage Item := ⟨[], some [("nextCursor", PyVal.str "abc")]⟩

/-- Cursor page whose metadata carries `nextCursor = ""`. -/
def cursorPageDone : CursorPage Item := ⟨[], some [("nextCursor", PyVal.str "")]⟩

/-- Cursor page whose metadata carries the falsy non-string value
`nextCursor = 0`. -/
def cursorPageFalsyInt : CursorPage Item := ⟨[], some [("nextCursor", PyVal.int 0)]⟩

/-- Cursor page whose metadata carries `nextCursor = "q"`. -/
def cursorPageQ : CursorPage Item := ⟨[], some [("nextCursor", PyVal.str "q")]⟩

/-- Fetch function returning the `"abc"` page on the initial `None` cursor
and the terminal page afterwards. -/
def exampleCursorFetch : PyVal → CursorPage Item :=
  fun c => match c with
  | PyVal.none => cursorPageAbc
  | _ => cursorPageDone

/-- A `content_type` class that is not a subclass of `ModelBase`. -/
def exampleBadContentType : ContentType := ⟨"OrderedDict", false, Item.plain⟩

/-- Raw numbered-page dictionary used for the `from_dict` claims. -/
def exampleRawNumbered : RawNumberedPage :=
  ⟨some [PyVal.int 1], some 0, some 25, some 1, Option.none⟩

/-- Raw cursor-page dictionary used for the `from_dict` claims. -/
def exampleRawCursor : RawCursorPage :=
  ⟨some [PyVal.int 1], some [("nextCursor", PyVal.str "abc")]⟩

/-- Non-empty numbered page whose single item is a deserialized model
object. -/
def roundtripNumberedObjPage : NumberedPage Item :=
  ⟨[Item.obj (PyVal.str "x")], some 0, some 25, some 1, some false⟩

/-- Non-empty cursor page whose single item is a deserialized model
object. -/
def roundtripCursorObjPage : CursorPage Item :=
  ⟨[Item.obj (PyVal.str "x")], some [("nextCursor", PyVal.str "")]⟩

/-- Non-empty numbered page whose single item is a plain value with no
`to_dict` method. -/
def roundtripNumberedPlainPage : NumberedPage Item :=
  ⟨[Item.plain (PyVal.int 7)], some 0, some 25, some 1, some false⟩

/-- C9: on a `NumberedPage` with `page_number = 0` and `page_size`,
`total_elements`, `has_next` all `None`, `has_more_pages()` returns the
indeterminate value `None` (treated as "no more pages"); the function is
total, so no exception is raised. -/
theorem has_more_pages_all_unset_returns_none :
    ∀ items : List Item,
      (NumberedPage.has_more_pages
        ⟨items, some 0, Option.none, Option.none, Option.none⟩) = Option.none := by
  intro items
  rfl

/-- C10: for every fetch function, start page, page size and iteration
budget, `get_page_generator` fetches page `start_page` and yields it before
any continuation test, so at least one page is always yielded and the first
yielded page is the first fetched one. -/
theorem get_page_generator_always_yields_first_page :
    ∀ (func : Nat → Option Nat → NumberedPage Item) (start_page : Nat)
      (page_size : Option Nat) (fuel : Nat),
      (NumberedPage.get_page_generator func start_page page_size (fuel + 1)).head? =
        some (func start_page page_size) ∧
      1 ≤ (NumberedPage.get_page_generator func start_page page_size (fuel + 1)).length := by
  intro func start_page page_size fuel
  constructor
  · simp [NumberedPage.get_page_generator]
  · simp [NumberedPage.get_page_generator]

/-- C2: `has_more_pages()` returns the explicit `has_next` field unchanged
whenever it is set, ignoring the other bookkeeping fields; consequently a
generator whose first fetched page carries `has_next = False` stops after
yielding exactly that page. -/
theorem has_more_pages_explicit_has_next_wins :
    (∀ (p : NumberedPage Item) (b : Bool), p.has_next = some b → p.has_more_pages = some b) ∧
    (∀ (func : Nat → Option Nat → NumberedPage Item) (start_page fuel : Nat)
      (page_size : Option Nat),
      (func start_page page_size).has_next = some false →
      NumberedPage.get_page_generator func start_page page_size (fuel + 1) =
        [func start_page page_size]) := by
  constructor
  · intro p b h
    simp [NumberedPage.has_more_pages, h]
  · intro func start_page fuel page_size h
    have hm : (func start_page page_size).has_more_pages = some false := by
      simp [NumberedPage.has_more_pages, h]
    simp [NumberedPage.get_page_generator, hm]

/-- Witness for C2: on the fixed dataset of 100 elements in pages of 25
whose pages carry `has_next = False`, page 0 reports no more pages and the
generator stops after one page, although `0 + 1 < ceil(100 / 25)`. -/
theorem has_more_pages_explicit_has_next_wins_witness :
    (exampleFetchHasNextFalse 0 (some 25)).has_more_pages = some false ∧
    NumberedPage.get_page_generator exampleFetchHasNextFalse 0 (some 25) 5 =
      [exampleFetchHasNextFalse 0 (some 25)] :=
  ⟨has_more_pages_explicit_has_next_wins.1 _ false rfl,
   has_more_pages_explicit_has_next_wins.2 exampleFetchHasNextFalse 0 4 (some 25) rfl⟩

/-- C4: the time-window advance function never raises the upper bound: when
every item of the fetched page has `updated` strictly below the current
`to_time`, the returned `to_time` is strictly smaller, and on an empty page
it is `to_time` minus one day. -/
theorem get_next_to_time_strictly_decreases :
    ∀ (result : NumberedPage Report) (to_time : Int),
      ((∀ r ∈ result.items, r.updated < to_time) →
        get_next_to_time result to_time < to_time) ∧
      (result.items = [] → get_next_to_time result to_time = to_time - DAY) := by
  intro result to_time
  constructor
  · intro h
    cases hl : result.items.getLast? with
    | none =>
      simp [get_next_to_time, hl, DAY]
    | some r =>
      have hr : r ∈ result.items :=
        List.mem_of_mem_getLast? (by rw [hl]; exact Option.mem_some_self r)
      have hu := h r hr
      simp [get_next_to_time, hl]
      omega
  · intro h
    simp [get_next_to_time, h]

/-- Witness for C4: on the page holding reports updated at 4500 and 4000
with `to_time = 5000` the window drops below 5000, and on the empty page it
drops by exactly one day. -/
theorem get_next_to_time_strictly_decreases_witness :
    get_next_to_time
      ⟨[⟨4500⟩, ⟨4000⟩], Option.none, Option.none, Option.none, Option.none⟩ 5000 < 5000 ∧
    get_next_to_time
      ⟨[], Option.none, Option.none, Option.none, Option.none⟩ 5000 = 5000 - DAY :=
  ⟨(get_next_to_time_strictly_decreases
      ⟨[⟨4500⟩, ⟨4000⟩], Option.none, Option.none, Option.none, Option.none⟩ 5000).1
      (by decide),
   (get_next_to_time_strictly_decreases
      ⟨[], Option.none, Option.none, Option.none, Option.none⟩ 5000).2 rfl⟩

/-- Counterexample for C6: on a non-empty page whose items are updated at 1
and 5 in that order, the code advances to `5 - 1 = 4`, not to one less than
the minimum `1 - 1 = 0`. -/
theorem get_next_to_time_min_counterexample :
    get_next_to_time
      ⟨[⟨1⟩, ⟨5⟩], Option.none, Option.none, Option.none, Option.none⟩ 1000 = 4 ∧
    ((⟨[⟨1⟩, ⟨5⟩], Option.none, Option.none, Option.none, Option.none⟩ :
        NumberedPage Report).items.map Report.updated).min? = some 1 ∧
    (4 : Int) ≠ 1 - 1 := by
  refine ⟨rfl, by decide, by decide⟩

/-- C6 amended: on a non-empty page the advance policy sets the next
`to_time` to one less than the `updated` timestamp of the last item of the
page (which is the earliest one only when the page is sorted by `updated` in
descending order). -/
theorem get_next_to_time_last_item :
    ∀ (result : NumberedPage Report) (to_time : Int) (r : Report),
      result.items.getLast? = some r →
      get_next_to_time result to_time = r.updated - 1 := by
  intro result to_time r h
  simp [get_next_to_time, h]

/-- Witness for C6 amended: on the page holding reports updated at 4500 and
4000, the next `to_time` is 3999. -/
theorem get_next_to_time_last_item_witness :
    get_next_to_time
      ⟨[⟨4500⟩, ⟨4000⟩], Option.none, Option.none, Option.none, Option.none⟩ 5000 =
      (4000 : Int) - 1 :=
  get_next_to_time_last_item
    ⟨[⟨4500⟩, ⟨4000⟩], Option.none, Option.none, Option.none, Option.none⟩ 5000 ⟨4000⟩ rfl

/-- C7: when the first fetched page carries `nextCursor = "abc"` and the
page fetched with cursor `"abc"` carries `nextCursor = ""`, the cursor
generator yields exactly those two pages, in fetch order, and stops without
error, for every sufficient iteration budget. -/
theorem cursor_generator_abc_then_empty_two_pages :
    ∀ (get_page : PyVal → CursorPage Item) (p1 p2 : CursorPage Item) (fuel : Nat),
      get_page PyVal.none = p1 →
      get_next_cursor p1 = .ok (PyVal.str "abc") →
      get_page (PyVal.str "abc") = p2 →
      get_next_cursor p2 = .ok (PyVal.str "") →
      CursorPage.get_cursor_based_page_generator get_page PyVal.none (fuel + 2) =
        ([p1, p2], Option.none) := by
  intro get_page p1 p2 fuel h1 h2 h3 h4
  simp [CursorPage.get_cursor_based_page_generator, h1, h2, h3, h4, pyTruthy]

/-- Witness for C7: the concrete fetch function serving the `"abc"` page
first and the terminal page second yields exactly those two pages. -/
theorem cursor_generator_abc_then_empty_two_pages_witness :
    CursorPage.get_cursor_based_page_generator exampleCursorFetch PyVal.none 2 =
      ([cursorPageAbc, cursorPageDone], Option.none) :=
  cursor_generator_abc_then_empty_two_pages exampleCursorFetch
    cursorPageAbc cursorPageDone 0 rfl rfl rfl rfl

/-- Counterexample for C3: the cursor freshly extracted from the page is the
falsy non-string value `0` — present and different from the empty string —
yet the generator stops after that single page, because the code tests
Python falsiness (`not cursor`), not string emptiness. -/
theorem cursor_generator_falsy_cursor_counterexample :
    get_next_cursor cursorPageFalsyInt = .ok (PyVal.int 0) ∧
    PyVal.int 0 ≠ PyVal.str "" ∧
    PyVal.int 0 ≠ PyVal.none ∧
    CursorPage.get_cursor_based_page_generator
      (fun _ => cursorPageFalsyInt) PyVal.none 5 = ([cursorPageFalsyInt], Option.none) :=
  ⟨rfl, by decide, by decide, rfl⟩

/-- C3 amended: after each fetch, continuation is decided on the cursor
freshly extracted from that page, and the termination test is Python
falsiness of that value (so the absent cursor, the empty string, but also
any other falsy value such as `0`, terminate); when the extracted cursor is
a string, falsiness coincides with string emptiness. -/
theorem cursor_generator_truthiness_governs :
    ∀ (get_page : PyVal → CursorPage Item) (cursor : PyVal) (fuel : Nat) (s : String),
      get_next_cursor (get_page cursor) = .ok (PyVal.str s) →
      CursorPage.get_cursor_based_page_generator get_page cursor (fuel + 2) =
        (if s = "" then ([get_page cursor], Option.none)
         else
           (get_page cursor ::
             (CursorPage.get_cursor_based_page_generator get_page (PyVal.str s) (fuel + 1)).1,
            (CursorPage.get_cursor_based_page_generator get_page (PyVal.str s) (fuel + 1)).2)) := by
  intro get_page cursor fuel s h
  by_cases hs : s = ""
  · subst hs
    simp [CursorPage.get_cursor_based_page_generator, h, pyTruthy]
  · rw [if_neg hs]
    conv_lhs => rw [show fuel + 2 = (fuel + 1) + 1 from rfl]
    rw [CursorPage.get_cursor_based_page_generator]
    rw [h]
    simp only []
    rw [if_pos (by simp [pyTruthy, hs])]

/-- Witness for C3 amended: on the constant fetch function serving the page
whose fresh cursor is the non-empty string `"q"`, the budget-2 run yields
the page and continues into the budget-1 tail run. -/
theorem cursor_generator_truthiness_governs_witness :
    CursorPage.get_cursor_based_page_generator (fun _ => cursorPageQ) PyVal.none 2 =
      (if "q" = "" then ([cursorPageQ], Option.none)
       else
         (cursorPageQ ::
           (CursorPage.get_cursor_based_page_generator (fun _ => cursorPageQ) (PyVal.str "q") 1).1,
          (CursorPage.get_cursor_based_page_generator (fun _ => cursorPageQ) (PyVal.str "q") 1).2)) :=
  cursor_generator_truthiness_governs (fun _ => cursorPageQ) PyVal.none 0 "q" rfl

/-- Counterexample for C5: on a `content_type` that is not a subclass of
`ModelBase`, both `from_dict` variants raise
`ValueError("'content_type' must be a subclass of ModelBase.")` — a fixed
message that does not name the offending type — and not the
`ConfigurationError` the claim prescribes. -/
theorem from_dict_raises_value_error_counterexample :
    NumberedPage.from_dict exampleRawNumbered (some exampleBadContentType) =
      .error (.valueError "\x27content_type\x27 must be a subclass of ModelBase.") ∧
    CursorPage.from_dict exampleRawCursor (some exampleBadContentType) =
      .error (.valueError "\x27content_type\x27 must be a subclass of ModelBase.") ∧
    raisesConfigurationErrorNaming
      (NumberedPage.from_dict exampleRawNumbered (some exampleBadContentType))
      exampleBadContentType.name = false ∧
    raisesConfigurationErrorNaming
      (CursorPage.from_dict exampleRawCursor (some exampleBadContentType))
      exampleBadContentType.name = false :=
  ⟨rfl, rfl, rfl, rfl⟩

/-- C5 amended: for every raw page dictionary and every `content_type` that
is not a subclass of `ModelBase`, `NumberedPage.from_dict` and
`CursorPage.from_dict` fail immediately with a
`ValueError("'content_type' must be a subclass of ModelBase.")` — a fixed
message that does not name the offending type — and no page object is
returned. -/
theorem from_dict_rejects_invalid_content_type :
    ∀ (np : RawNumberedPage) (cp : RawCursorPage) (ct : ContentType),
      ct.isModelBaseSubclass = false →
      NumberedPage.from_dict np (some ct) =
        .error (.valueError "\x27content_type\x27 must be a subclass of ModelBase.") ∧
      CursorPage.from_dict cp (some ct) =
        .error (.valueError "\x27content_type\x27 must be a subclass of ModelBase.") := by
  intro np cp ct h
  constructor
  · simp [NumberedPage.from_dict, h]
  · simp [CursorPage.from_dict, h]

/-- Witness for C5 amended: the concrete non-`ModelBase` class is rejected
with the fixed `ValueError` on both page variants. -/
theorem from_dict_rejects_invalid_content_type_witness :
    NumberedPage.from_dict exampleRawNumbered (some exampleBadContentType) =
      .error (.valueError "\x27content_type\x27 must be a subclass of ModelBase.") ∧
    CursorPage.from_dict exampleRawCursor (some exampleBadContentType) =
      .error (.valueError "\x27content_type\x27 must be a subclass of ModelBase.") :=
  from_dict_rejects_invalid_content_type exampleRawNumbered exampleRawCursor
    exampleBadContentType rfl

/-- Re-wrapping the serialized items of an all-plain item list reproduces the
list. -/
theorem map_plain_itemToDict_of_all_plain :
    ∀ (items : List Item), (∀ it ∈ items, ∃ v, it = Item.plain v) →
      (items.map itemToDict).map Item.plain = items := by
  intro items
  induction items with
  | nil => intro _; rfl
  | cons hd tl ih =>
    intro h
    obtain ⟨v, hv⟩ := h hd (List.mem_cons_self hd tl)
    subst hv
    simp only [List.map_cons, itemToDict, List.cons.injEq, true_and]
    exact ih fun it hit => h it (List.mem_cons_of_mem _ hit)

/-- Counterexample for C8: on non-empty pages whose items are deserialized
model objects, `from_dict(to_dict(p))` with no `content_type` returns the
serialized dictionaries in place of the original items, so the reconstructed
page differs from `p` for both variants. -/
theorem page_roundtrip_counterexample :
    NumberedPage.from_dict (roundtripNumberedObjPage.to_dict false) Option.none ≠
      .ok roundtripNumberedObjPage ∧
    (roundtripCursorObjPage.to_dict false).bind
      (fun raw => CursorPage.from_dict raw Option.none) ≠
      .ok roundtripCursorObjPage := by
  constructor
  · intro h
    rw [show NumberedPage.from_dict (roundtripNumberedObjPage.to_dict false) Option.none =
        .ok ⟨[Item.plain (PyVal.str "x")], some 0, some 25, some 1, some false⟩ from rfl] at h
    exact absurd (Except.ok.inj h) (by decide)
  · intro h
    rw [show (roundtripCursorObjPage.to_dict false).bind
        (fun raw => CursorPage.from_dict raw Option.none) =
        .ok ⟨[Item.plain (PyVal.str "x")], some [("nextCursor", PyVal.str "")]⟩ from rfl] at h
    exact absurd (Except.ok.inj h) (by decide)

/-- C8 amended: `from_dict(to_dict(p))` with no `content_type` reconstructs
`p` exactly — same items and same page metadata — for every `NumberedPage`
whose items are plain values; for every `CursorPage` (whose `to_dict`
serializes items unconditionally and so succeeds exactly when every item is
a model object), the round trip preserves `response_metadata` but returns
the items replaced by their serialized dictionaries. -/
theorem page_roundtrip_amended :
    (∀ (p : NumberedPage Item), (∀ it ∈ p.items, ∃ v, it = Item.plain v) →
      NumberedPage.from_dict (p.to_dict false) Option.none = .ok p) ∧
    (∀ (p : CursorPage Item) (ds : List PyVal),
      p.items.mapM itemToDictStrict = .ok ds →
      (p.to_dict false).bind (fun raw => CursorPage.from_dict raw Option.none) =
        .ok ⟨ds.map Item.plain, p.response_metadata⟩) := by
  constructor
  · intro p hp
    simp [NumberedPage.from_dict, NumberedPage.to_dict,
      map_plain_itemToDict_of_all_plain p.items hp]
  · intro p ds h
    simp only [CursorPage.to_dict, CursorPage.from_dict, h, Except.bind]
    simp

/-- Witness for C8 amended: the all-plain numbered page round-trips to
itself, and the model-object cursor page round-trips to the page holding the
serialized item with unchanged metadata. -/
theorem page_roundtrip_amended_witness :
    NumberedPage.from_dict (roundtripNumberedPlainPage.to_dict false) Option.none =
      .ok roundtripNumberedPlainPage ∧
    (roundtripCursorObjPage.to_dict false).bind
      (fun raw => CursorPage.from_dict raw Option.none) =
      .ok ⟨[PyVal.str "x"].map Item.plain, roundtripCursorObjPage.response_metadata⟩ :=
  ⟨page_roundtrip_amended.1 roundtripNumberedPlainPage
      (by intro it hit; simp [roundtripNumberedPlainPage] at hit; exact ⟨_, hit⟩),
   page_roundtrip_amended.2 roundtripCursorObjPage [PyVal.str "x"] rfl⟩

/-- Length invariant of the numbered-page generator over a consistent
dataset: started at page `n` below the total page count, with enough
iteration budget it yields exactly the remaining pages. -/
theorem get_page_generator_length_invariant
    (func : Nat → Option Nat → NumberedPage Item) (ps : Option Nat) (T S : Nat)
    (hfunc : ∀ n, (func n ps).page_number = some n ∧ (func n ps).page_size = some S ∧
      (func n ps).total_elements = some T ∧ (func n ps).has_next = Option.none) :
    ∀ (fuel n : Nat), n < ceilDiv T S → ceilDiv T S - n ≤ fuel →
      (NumberedPage.get_page_generator func n ps fuel).length = ceilDiv T S - n := by
  intro fuel
  induction fuel with
  | zero =>
    intro n hn hle
    exfalso
    omega
  | succ f ih =>
    intro n hn hle
    obtain ⟨h1, h2, h3, h4⟩ := hfunc n
    have hmp : (func n ps).has_more_pages = some (decide (n + 1 < ceilDiv T S)) := by
      simp [NumberedPage.has_more_pages, NumberedPage.get_total_pages, h1, h2, h3, h4]
    by_cases hlt : n + 1 < ceilDiv T S
    · have hrec := ih (n + 1) hlt (by omega)
      simp [NumberedPage.get_page_generator, hmp, hlt, hrec]
      omega
    · simp [NumberedPage.get_page_generator, hmp, hlt]
      omega

/-- Counterexample for C1: on the consistent empty dataset
(`totalElements = 0`, `pageSize = 25`, `hasNext` unset) the generator
started at page 0 yields one page, while `ceil(0 / 25) = 0` pages were
claimed. -/
theorem get_page_generator_zero_total_counterexample :
    (NumberedPage.get_page_generator exampleFetchEmpty 0 (some 25) 5).length = 1 ∧
    ceilDiv 0 25 = 0 ∧ (1 : Nat) ≠ 0 :=
  ⟨rfl, rfl, by decide⟩

/-- C1 amended: for every fetch function serving a non-empty fixed dataset
with consistent positive `total_elements` and `page_size` (each fetched page
echoes the requested page number and carries the same `total_elements` and
`page_size`, `has_next` unset), the generator started at page 0 yields
exactly `ceil(total_elements / page_size)` pages and stops, for every
sufficient iteration budget.  (On an empty dataset it yields one page, not
zero.) -/
theorem get_page_generator_yields_ceil_pages :
    ∀ (func : Nat → Option Nat → NumberedPage Item) (ps : Option Nat) (T S fuel : Nat),
      (∀ n, (func n ps).page_number = some n ∧ (func n ps).page_size = some S ∧
        (func n ps).total_elements = some T ∧ (func n ps).has_next = Option.none) →
      1 ≤ T → 1 ≤ S → ceilDiv T S ≤ fuel →
      (NumberedPage.get_page_generator func 0 ps fuel).length = ceilDiv T S := by
  intro func ps T S fuel hfunc hT hS hfuel
  have hP : 0 < ceilDiv T S := by
    unfold ceilDiv
    have h1 : 1 ≤ (T + S - 1) / S := (Nat.one_le_div_iff (by omega)).2 (by omega)
    omega
  have hlen := get_page_generator_length_invariant func ps T S hfunc fuel 0 hP (by omega)
  simpa using hlen

/-- Witness for C1 amended: the fixed dataset of 5 elements in pages of 2
yields exactly `ceil(5 / 2) = 3` pages. -/
theorem get_page_generator_yields_ceil_pages_witness :
    (NumberedPage.get_page_generator exampleFetchFive 0 (some 2) 3).length = ceilDiv 5 2 :=
  get_page_generator_yields_ceil_pages exampleFetchFive (some 2) 5 2 3
    (fun _ => ⟨rfl, rfl, rfl, rfl⟩) (by decide) (by decide) (by decide)
